import Mathlib

/- Shallow embedding of `dcm_to_nii` from
src/sammba/io_conversions/bruker_dicom.py, restricted to the in-memory
conversion pipeline: per-frame parameter-table normalisation (lines
260-288), slice count (line 290), volume reshaping (lines 302-304),
slice geometry and affine computation (lines 307-342) and output-name
construction (lines 353-380).  External I/O (the dcmdump invocation, the
raw-file read, the NIfTI/ptbl writes) is out of scope; the raw sample
buffer, the post-scan header state and the path-derived strings are taken
as inputs.  Python floats are modelled as rationals; the two computations
involving `** 0.5` are modelled over the reals. -/

namespace BrukerDicom

/-- Failure kinds of one conversion.  `missingTag f` stands for the Python
`NameError` raised at the first use of a header variable `f` that the tag
scan never assigned; `maxOfEmpty` for the `ValueError` of `max([])` (line
290); `reshapeMismatch` for the `ValueError` of `np.reshape` on a size or
negative-dimension mismatch (lines 302-303); `zeroDivision` for
`frames / slices` with `slices == 0` (line 303); `indexError` for the
boolean-mask first/last slice-position lookups (lines 307-308); and
`unsupportedPatientPosition` for the `NameError` on `ppaff` (line 340)
when the patient-position code matched none of lines 330-336. -/
inductive ConvError where
  | missingTag (field : String)
  | maxOfEmpty
  | reshapeMismatch
  | zeroDivision
  | indexError
  | unsupportedPatientPosition
  deriving DecidableEq, Repr

/-- One value of the parameter table: a decoded string, rational, integer,
rational vector or integer vector.  The sentinel written by the
length-mismatch normalisation (lines 260-281) is `Cell.s "NA"`. -/
inductive Cell where
  | s (v : String)
  | q (v : ℚ)
  | i (v : ℤ)
  | qv (v : List ℚ)
  | iv (v : List ℤ)
  deriving DecidableEq, Repr

/-- Post-scan parser state: exactly the variables accumulated by the tag
loop of lines 145-249.  A scalar variable that the loop may leave unbound
(no matching tag line in the dump) is an `Option` (`none` = unassigned;
its first use then raises `NameError`); `TR`, `protocol` and
`bruker_sequence` are pre-initialised to `[]` in the source and so can
never raise, hence they are `Option` with `none` meaning "still `[]`".
Repeating tags accumulate into lists.  Image positions decode 3 floats,
orientation cosines 6, pixel spacing 2. -/
structure Header where
  acqdate : Option String
  acqtime : Option String
  patID : Option String
  acqdims : Option String
  thk : Option ℚ
  TR : Option ℚ
  protocol : Option String
  patpos : Option String
  bruker_sequence : Option String
  diffdir : List String
  TIs : List ℚ
  bval : List ℚ
  bvalXX : List ℚ
  bvalXY : List ℚ
  bvalXZ : List ℚ
  bvalYY : List ℚ
  bvalYZ : List ℚ
  bvalZZ : List ℚ
  IPPs : List (Fin 3 → ℚ)
  cosines : Option (Fin 6 → ℚ)
  ISPnums : List ℤ
  repno : List ℤ
  DIVs : List (List ℤ)
  frame_comments : List String
  frames : Option ℤ
  rows : Option ℤ
  cols : Option ℤ
  pixspac : Option (Fin 2 → ℚ)

/-- The boolean options of `dcm_to_nii` (its keyword arguments). -/
structure Opts where
  siap_fix : Bool
  id_in_filename : Bool
  date_in_filename : Bool
  time_in_filename : Bool
  protocol_in_filename : Bool
  paravision_folder_in_filename : Bool
  siap_in_filename : Bool

/-- Reading a Python variable that the scan may have left unbound: `none`
raises `NameError` naming the variable. -/
def require (o : Option α) (n : String) : Except ConvError α :=
  match o with
  | some v => Except.ok v
  | none => Except.error (ConvError.missingTag n)

/-- Python `max` over a list of integers; `max([])` raises `ValueError`
(line 290, `slices = max(ISPnums)`). -/
def pymax : List ℤ → Except ConvError ℤ
  | [] => Except.error ConvError.maxOfEmpty
  | x :: xs => Except.ok (xs.foldl max x)

/-- A numpy array dimension: negative dimensions make `np.reshape` raise
(numpy's `-1` inference is not modelled; no tag-derived dimension is -1 in
any behaviour the spec describes). -/
def toDim (n : ℤ) : Except ConvError ℕ :=
  if 0 ≤ n then Except.ok n.toNat else Except.error ConvError.reshapeMismatch

/-- A C-order numpy array: a shape and the flat data buffer. -/
structure NDArray where
  shape : List ℕ
  data : List ℤ
  deriving DecidableEq, Repr

/-- C-order flat offset of a multi-index in a shape: the first axis varies
slowest. -/
def cIndex : List ℕ → List ℕ → ℕ
  | _ :: ds, i :: is => i * ds.prod + cIndex ds is
  | _, _ => 0

/-- Element read of a C-order array at a multi-index. -/
def NDArray.at (a : NDArray) (idx : List ℕ) : ℤ :=
  a.data.getD (cIndex a.shape idx) 0

/-- `np.reshape`: succeeds exactly when the target shape's product equals
the number of elements; the flat C-order data is unchanged. -/
def npReshape (data : List ℤ) (shape : List ℕ) : Except ConvError NDArray :=
  if shape.prod = data.length then Except.ok ⟨shape, data⟩
  else Except.error ConvError.reshapeMismatch

/-- The converted 4-D volume: the result of
`np.transpose(rawarray, (3, 2, 1, 0))` (line 304) viewed over the
(repetitions, slices, rows, columns) array `arr` of line 303.  The
permutation (3,2,1,0) reverses the axes, so the view's shape is the
reverse of `arr.shape` and reading voxel (col, row, slice, rep) reads
`arr` at (rep, slice, row, col). -/
structure Volume where
  arr : NDArray
  deriving DecidableEq, Repr

/-- Shape of the transposed volume: axes (columns, rows, slices,
repetitions). -/
def Volume.shape (v : Volume) : List ℕ := v.arr.shape.reverse

/-- Voxel read of the transposed volume at (col, row, slice, rep). -/
def Volume.vox (v : Volume) (col row slc rep : ℕ) : ℤ :=
  v.arr.at [rep, slc, row, col]

/-- Lines 302-303: reshape the flat buffer to (frames, rows, cols), then
to (frames / slices, slices, rows, cols); `int(frames / slices)` is
truncating division, which for the non-negative dimensions reaching this
point is `Nat` division. -/
def reshapeVolume (raw : List ℤ) (fN sN rN cN : ℕ) : Except ConvError Volume := do
  let a1 ← npReshape raw [fN, rN, cN]
  let a2 ← npReshape a1.data [fN / sN, sN, rN, cN]
  Except.ok ⟨a2⟩

/-- Lines 307-308: `np.array(IPPs)[np.array(ISPnums) == v].tolist()[0]`,
the image position of the first frame whose in-stack position number is
`v`.  A boolean mask of mismatched length raises; so does `[0]` on an
empty selection. -/
def maskFirst (ipps : List (Fin 3 → ℚ)) (isp : List ℤ) (v : ℤ) :
    Except ConvError (Fin 3 → ℚ) :=
  if ipps.length ≠ isp.length then Except.error ConvError.indexError
  else
    match (List.zip isp ipps).find? (fun p => p.1 == v) with
    | some p => Except.ok p.2
    | none => Except.error ConvError.indexError

/-- Lines 315-318: the inter-slice step vector. -/
def stepOf (fsp lsp : Fin 3 → ℚ) (slices : ℤ) : Fin 3 → ℚ :=
  if slices = 1 then ![0, 0, -1]
  else fun i => (fsp i - lsp i) / (1 - (slices : ℚ))

/-- Lines 312-313: the radicand of
`eucliddist = (flspdiff[0]**2 + flspdiff[1]**2 + flspdiff[2]**2) ** 0.5`.
The outer `** 0.5` (real exponentiation) and line 319's
`slicegap = eucliddist / (slices - 1)` are not computable over the exact
reals, so they appear spelled out over ℝ in the theorem about this
definition rather than as a `def`. -/
def euclidSqOf (fsp lsp : Fin 3 → ℚ) : ℚ :=
  (fsp 0 - lsp 0) ^ (2 : ℕ) + (fsp 1 - lsp 1) ^ (2 : ℕ)
    + (fsp 2 - lsp 2) ^ (2 : ℕ)

/-- Modelled from the spec: `_rotate_affine(180, 'x')`.  `_rotate_affine`
is imported from sammba.io_conversions.utils, which is not among the
sources under src/; per the spec (4.4) it is the 4x4 homogeneous affine of
the standard right-handed rotation by the given angle in degrees about the
given axis.  Only the four instantiations `dcm_to_nii` uses are modelled,
as exact rational matrices. -/
def rot180x : Matrix (Fin 4) (Fin 4) ℚ :=
  !![1, 0, 0, 0; 0, -1, 0, 0; 0, 0, -1, 0; 0, 0, 0, 1]

/-- Modelled from the spec: `_rotate_affine(180, 'y')` (see `rot180x`). -/
def rot180y : Matrix (Fin 4) (Fin 4) ℚ :=
  !![-1, 0, 0, 0; 0, 1, 0, 0; 0, 0, -1, 0; 0, 0, 0, 1]

/-- Modelled from the spec: `_rotate_affine(180, 'z')` (see `rot180x`). -/
def rot180z : Matrix (Fin 4) (Fin 4) ℚ :=
  !![-1, 0, 0, 0; 0, -1, 0, 0; 0, 0, 1, 0; 0, 0, 0, 1]

/-- Modelled from the spec: `_rotate_affine(270, 'x')` (see `rot180x`):
cos 270 = 0, sin 270 = -1. -/
def rot270x : Matrix (Fin 4) (Fin 4) ℚ :=
  !![1, 0, 0, 0; 0, 0, 1, 0; 0, -1, 0, 0; 0, 0, 0, 1]

/-- Line 327: `affineident = np.eye(4)`. -/
def affineident : Matrix (Fin 4) (Fin 4) ℚ := 1

/-- Lines 321-325: the base affine before any correction. -/
def baseAffine (c : Fin 6 → ℚ) (px : Fin 2 → ℚ) (step fsp : Fin 3 → ℚ) :
    Matrix (Fin 4) (Fin 4) ℚ :=
  !![-c 0 * px 1, -c 3 * px 0, -step 0, -fsp 0;
     -c 1 * px 1, -c 4 * px 0, -step 1, -fsp 1;
     c 2 * px 1, c 5 * px 0, step 2, fsp 2;
     0, 0, 0, 1]

/-- Lines 330-336: the patient-position correction; `none` means the
variable `ppaff` is left unassigned (its later use, if any, raises). -/
def ppaffOf (patpos : String) : Option (Matrix (Fin 4) (Fin 4) ℚ) :=
  if patpos = "HFS" then some rot180y
  else if patpos = "FFS" then some affineident
  else if patpos = "HFP" then some rot180x
  else none

/-- Lines 338-342: the anatomical-axis (SIAP) correction.  When
`siap_fix` holds, the final affine is
`rot270x * rot180y * rot180z * ppaff * base`, raising on an unassigned
`ppaff`; otherwise the base affine is kept and the skipped-correction
diagnostic is printed (the returned flag). -/
def finalAffine (siap_fix : Bool) (patpos : String)
    (base : Matrix (Fin 4) (Fin 4) ℚ) :
    Except ConvError (Matrix (Fin 4) (Fin 4) ℚ × Bool) :=
  if siap_fix then
    match ppaffOf patpos with
    | some pp => Except.ok (rot270x * rot180y * rot180z * pp * base, false)
    | none => Except.error ConvError.unsupportedPatientPosition
  else Except.ok (base, true)

/-- Lines 260-281: an optional per-frame sequence whose length differs
from `len(ISPnums)` is replaced wholesale by that many copies of the
sentinel "NA". -/
def normalizeOpt (xs : List Cell) (n : ℕ) : List Cell :=
  if xs.length ≠ n then List.replicate n (Cell.s "NA") else xs

/-- Lines 260-288: the columns of the parameter table, after the
wholesale sentinel normalisation of every optional sequence.  `ISPnums`,
the stringified image positions and the dimension-index vectors are not
normalised. -/
def buildPtbl (h : Header) : List (List Cell) :=
  let n := h.ISPnums.length
  [normalizeOpt (h.repno.map Cell.i) n,
   h.ISPnums.map Cell.i,
   normalizeOpt (h.diffdir.map Cell.s) n,
   normalizeOpt (h.TIs.map Cell.q) n,
   normalizeOpt (h.bval.map Cell.q) n,
   normalizeOpt (h.bvalXX.map Cell.q) n,
   normalizeOpt (h.bvalXY.map Cell.q) n,
   normalizeOpt (h.bvalXZ.map Cell.q) n,
   normalizeOpt (h.bvalYY.map Cell.q) n,
   normalizeOpt (h.bvalYZ.map Cell.q) n,
   normalizeOpt (h.bvalZZ.map Cell.q) n,
   h.IPPs.map (fun p => Cell.qv (List.ofFn p)),
   normalizeOpt (h.frame_comments.map Cell.s) n,
   h.DIVs.map Cell.iv]

/-- Lines 353-380: build the output basename (without extension) from the
enabled parts, in source order (ID, date, time, protocol, SIAP, folder).
A part whose variable was never assigned raises `NameError` when its
option is enabled; `protocol` is pre-initialised so `''.join(protocol)`
yields the empty string instead.  When every option is disabled, the code
warns and sets `basename_parts` to the basename string itself, so the
final `'_'.join` then joins its characters.  Returns the basename and
whether the fallback warning fired. -/
def buildParts (o : Opts) (patID acqdate acqtime : Option String)
    (protocolStr bf basename : String) : Except ConvError (String × Bool) := do
  let siapRes := if o.siap_fix then "fixedSIAP" else "origSIAP"
  let p1 ← if o.id_in_filename then (require patID "patID").map (fun v => [v])
           else Except.ok []
  let p2 ← if o.date_in_filename then (require acqdate "acqdate").map (fun v => [v])
           else Except.ok []
  let p3 ← if o.time_in_filename then (require acqtime "acqtime").map (fun v => [v])
           else Except.ok []
  let p4 : List String := if o.protocol_in_filename then [protocolStr] else []
  let p5 : List String := if o.siap_in_filename then [siapRes] else []
  let p6 : List String := if o.paravision_folder_in_filename then [bf] else []
  let parts := p1 ++ p2 ++ p3 ++ p4 ++ p5 ++ p6
  if parts.isEmpty then
    Except.ok (String.intercalate "_" (basename.toList.map (fun ch => ch.toString)), true)
  else
    Except.ok (String.intercalate "_" parts, false)

/-- The in-memory result of one conversion: the transposed volume, the
final affine, the parameter-table columns, the output basename (without
extension), whether the skipped-SIAP diagnostic was printed, and whether
the empty-naming fallback warning fired. -/
structure ConvResult where
  volume : Volume
  affine : Matrix (Fin 4) (Fin 4) ℚ
  ptbl : List (List Cell)
  basename_no_ext : String
  siapNote : Bool
  namingNote : Bool

/-- The conversion pipeline of `dcm_to_nii`, in source order: parameter
table (260-288), slice count (290), reshape chain (302-304), first/last
slice positions (307-308), step vector (315-318), base affine (321-325),
patient position read (330), SIAP correction (338-342), output naming
(353-380).  `pvFolder` is the path component `dicom_filename.split(os.sep)[-5]`
and `basename` is `os.path.basename(dicom_filename)`, both derived from
the input path outside the modelled core. -/
def dcm_to_nii (h : Header) (raw : List ℤ) (o : Opts)
    (pvFolder basename : String) : Except ConvError ConvResult := do
  let ptbl := buildPtbl h
  let slices ← pymax h.ISPnums
  let frames ← require h.frames "frames"
  let rows ← require h.rows "rows"
  let cols ← require h.cols "cols"
  let fN ← toDim frames
  let rN ← toDim rows
  let cN ← toDim cols
  if slices = 0 then Except.error ConvError.zeroDivision
  else if slices < 0 then Except.error ConvError.reshapeMismatch
  else do
    let vol ← reshapeVolume raw fN slices.toNat rN cN
    let fsp ← maskFirst h.IPPs h.ISPnums 1
    let lsp ← maskFirst h.IPPs h.ISPnums slices
    let step := stepOf fsp lsp slices
    let cos6 ← require h.cosines "cosines"
    let px ← require h.pixspac "pixspac"
    let base := baseAffine cos6 px step fsp
    let patpos ← require h.patpos "patpos"
    let far ← finalAffine o.siap_fix patpos base
    let nm ← buildParts o h.patID h.acqdate h.acqtime (h.protocol.getD "")
      ("bf" ++ pvFolder) basename
    Except.ok ⟨vol, far.1, ptbl, nm.1, far.2, nm.2⟩

/- Helper lemmas shared by the claim proofs. -/

/-- Destructing a successful `Except` bind. -/
theorem except_bind_ok {ε α β : Type} {x : Except ε α} {f : α → Except ε β}
    {b : β} (hx : (x >>= f) = Except.ok b) :
    ∃ a, x = Except.ok a ∧ f a = Except.ok b := by
  cases x with
  | error e => simp [Bind.bind, Except.bind] at hx
  | ok a => exact ⟨a, rfl, hx⟩

/-- A successful `require` means the variable was assigned. -/
theorem require_ok {α : Type} {o : Option α} {n : String} {a : α}
    (ho : require o n = Except.ok a) : o = some a := by
  cases o with
  | none => simp [require] at ho
  | some v => simpa [require] using ho

/-- `foldl max` lands in the list it scans (with its seed). -/
theorem foldl_max_mem : ∀ (as : List ℤ) (a : ℤ), as.foldl max a ∈ a :: as := by
  intro as
  induction as with
  | nil => intro a; simp
  | cons b bs ih =>
    intro a
    rw [List.foldl_cons]
    rcases List.mem_cons.1 (ih (max a b)) with h1 | h1
    · rw [h1]
      rcases max_choice a b with hm | hm <;> rw [hm]
      · exact List.mem_cons_self _ _
      · exact List.mem_cons_of_mem _ (List.mem_cons_self _ _)
    · exact List.mem_cons_of_mem _ (List.mem_cons_of_mem _ h1)

/-- Every scanned element is bounded by the `foldl max`. -/
theorem foldl_max_le : ∀ (as : List ℤ) (a x : ℤ), x ∈ a :: as → x ≤ as.foldl max a := by
  intro as
  induction as with
  | nil =>
    intro a x hx
    rw [List.foldl_nil]
    rcases List.mem_cons.1 hx with h1 | h1
    · exact le_of_eq h1
    · simp at h1
  | cons b bs ih =>
    intro a x hx
    rw [List.foldl_cons]
    rcases List.mem_cons.1 hx with h1 | h1
    · rw [h1]
      exact le_trans (le_max_left a b) (ih (max a b) (max a b) (List.mem_cons_self _ _))
    · rcases List.mem_cons.1 h1 with h2 | h2
      · rw [h2]
        exact le_trans (le_max_right a b) (ih (max a b) (max a b) (List.mem_cons_self _ _))
      · exact ih (max a b) x (List.mem_cons_of_mem _ h2)

/-- `pymax` returns the maximum of the (nonempty) list. -/
theorem pymax_spec {l : List ℤ} {m : ℤ} (hm : pymax l = Except.ok m) :
    m ∈ l ∧ ∀ x ∈ l, x ≤ m := by
  cases l with
  | nil => simp [pymax] at hm
  | cons a as =>
    simp only [pymax, Except.ok.injEq] at hm
    subst hm
    exact ⟨foldl_max_mem as a, foldl_max_le as a⟩

/-- A successful masked lookup means the sought value occurs. -/
theorem maskFirst_ok_mem {ipps : List (Fin 3 → ℚ)} {isp : List ℤ} {v : ℤ}
    {p : Fin 3 → ℚ} (hmf : maskFirst ipps isp v = Except.ok p) : v ∈ isp := by
  unfold maskFirst at hmf
  split at hmf
  · simp at hmf
  · cases hfind : (List.zip isp ipps).find? (fun q => q.1 == v) with
    | none => rw [hfind] at hmf; simp at hmf
    | some q =>
      obtain ⟨q1, q2⟩ := q
      have hq : q1 = v := by simpa using List.find?_some hfind
      have hmem : (q1, q2) ∈ List.zip isp ipps := List.mem_of_find?_eq_some hfind
      have h1 : q1 ∈ isp := (List.of_mem_zip hmem).1
      rwa [hq] at h1

/-- A successful `finalAffine` with the correction enabled means the
patient-position code was one of the handled ones. -/
theorem finalAffine_ok_patpos {s : Bool} {p : String}
    {b : Matrix (Fin 4) (Fin 4) ℚ} {x : Matrix (Fin 4) (Fin 4) ℚ × Bool}
    (hfa : finalAffine s p b = Except.ok x) :
    s = true → (ppaffOf p).isSome := by
  intro hs
  subst hs
  unfold finalAffine at hfa
  cases hpp : ppaffOf p with
  | none => rw [hpp] at hfa; simp at hfa
  | some pp => simp

/-- Anatomy of a successful conversion: facts forced by every `.ok` run. -/
theorem dcm_ok_anatomy {h : Header} {raw : List ℤ} {o : Opts} {pv bn : String}
    {res : ConvResult} (hok : dcm_to_nii h raw o pv bn = Except.ok res) :
    h.ISPnums ≠ [] ∧
    h.frames.isSome ∧ h.rows.isSome ∧ h.cols.isSome ∧
    (1 : ℤ) ∈ h.ISPnums ∧
    h.cosines.isSome ∧ h.pixspac.isSome ∧
    ∃ p, h.patpos = some p ∧ (o.siap_fix = true → (ppaffOf p).isSome) := by
  unfold dcm_to_nii at hok
  obtain ⟨slices, hsl, hok⟩ := except_bind_ok hok
  obtain ⟨frames, hfr, hok⟩ := except_bind_ok hok
  obtain ⟨rows, hrw, hok⟩ := except_bind_ok hok
  obtain ⟨cols, hcl, hok⟩ := except_bind_ok hok
  obtain ⟨fN, hfN, hok⟩ := except_bind_ok hok
  obtain ⟨rN, hrN, hok⟩ := except_bind_ok hok
  obtain ⟨cN, hcN, hok⟩ := except_bind_ok hok
  split at hok
  · simp at hok
  · split at hok
    · simp at hok
    · obtain ⟨vol, hvol, hok⟩ := except_bind_ok hok
      obtain ⟨fsp, hfsp, hok⟩ := except_bind_ok hok
      obtain ⟨lsp, hlsp, hok⟩ := except_bind_ok hok
      obtain ⟨cos6, hcos, hok⟩ := except_bind_ok hok
      obtain ⟨px, hpx, hok⟩ := except_bind_ok hok
      obtain ⟨patpos, hpt, hok⟩ := except_bind_ok hok
      obtain ⟨far, hfar, hok⟩ := except_bind_ok hok
      refine ⟨?_, ?_, ?_, ?_, ?_, ?_, ?_, patpos, require_ok hpt, finalAffine_ok_patpos hfar⟩
      · intro hemp
        rw [hemp] at hsl
        simp [pymax] at hsl
      · rw [require_ok hfr]; rfl
      · rw [require_ok hrw]; rfl
      · rw [require_ok hcl]; rfl
      · exact maskFirst_ok_mem hfsp
      · rw [require_ok hcos]; rfl
      · rw [require_ok hpx]; rfl

/- Concrete inputs used by witnesses and counterexamples. -/

/-- A well-formed post-scan header: two frames, two slices, 1x1 pixels. -/
def hBase : Header :=
  { acqdate := some "20160219", acqtime := some "120000", patID := some "rat1",
    acqdims := some "2D", thk := some 1, TR := some 100, protocol := some "T2",
    patpos := some "HFS", bruker_sequence := some "RARE",
    diffdir := [], TIs := [], bval := [], bvalXX := [], bvalXY := [],
    bvalXZ := [], bvalYY := [], bvalYZ := [], bvalZZ := [],
    IPPs := [![0, 0, 0], ![0, 0, -1]], cosines := some ![1, 0, 0, 0, 1, 0],
    ISPnums := [1, 2], repno := [], DIVs := [], frame_comments := [],
    frames := some 2, rows := some 1, cols := some 1, pixspac := some ![1, 1] }

/-- All filename-component options and the SIAP correction disabled. -/
def oAllOff : Opts := ⟨false, false, false, false, false, false, false⟩

/- Claim theorems. -/

/-- C1: reshaping a flat buffer of length frames*rows*cols with
frames % slices = 0 and reading back voxel (col, row, slice, rep) of the
transposed volume yields the sample at flat index
rep*slices*rows*cols + slice*rows*cols + row*cols + col, and the
reshape-and-transpose orders the axes (columns, rows, slices,
repetitions). -/
theorem reshape_reads_expected_flat_sample (raw : List ℤ)
    (f s r c col row slc rep : ℕ)
    (hlen : raw.length = f * r * c) (hmod : f % s = 0)
    (hcol : col < c) (hrow : row < r) (hslc : slc < s) (hrep : rep < f / s) :
    ∃ v, reshapeVolume raw f s r c = Except.ok v ∧
      v.shape = [c, r, s, f / s] ∧
      v.vox col row slc rep =
        raw.getD (rep * s * r * c + slc * r * c + row * c + col) 0 := by
  have hdvd : s ∣ f := Nat.dvd_of_mod_eq_zero hmod
  have h1 : ([f, r, c] : List ℕ).prod = raw.length := by
    simp [hlen]; ring
  have h2 : ([f / s, s, r, c] : List ℕ).prod = raw.length := by
    simp [hlen]
    calc f / s * (s * (r * c)) = f / s * s * (r * c) := by ring
    _ = f * (r * c) := by rw [Nat.div_mul_cancel hdvd]
    _ = f * r * c := by ring
  refine ⟨⟨⟨[f / s, s, r, c], raw⟩⟩, ?_, ?_, ?_⟩
  · simp [reshapeVolume, npReshape, h1, h2, Bind.bind, Except.bind]
  · simp [Volume.shape]
  · simp only [Volume.vox, NDArray.at, cIndex, List.prod_cons, List.prod_nil]
    congr 1
    ring

/-- Witness for C1 at frames = 4, slices = 2, rows = 1, cols = 2, voxel
(1, 0, 1, 1) of a buffer of increasing samples. -/
theorem reshape_reads_expected_flat_sample_witness :
    ∃ v, reshapeVolume ((List.range 8).map Int.ofNat) 4 2 1 2 = Except.ok v ∧
      v.shape = [2, 1, 2, 4 / 2] ∧
      v.vox 1 0 1 1 =
        ((List.range 8).map Int.ofNat).getD (1 * 2 * 1 * 2 + 1 * 1 * 2 + 0 * 2 + 1) 0 :=
  reshape_reads_expected_flat_sample ((List.range 8).map Int.ofNat) 4 2 1 2 1 0 1 1
    (by decide) (by decide) (by decide) (by decide) (by decide) (by decide)

/-- C2: the base affine has exactly the rows of lines 321-325, and with
the anatomical-axis correction enabled the returned affine is the product
rot270X * rot180Y * rot180Z * ppaff * base in that order, while with it
disabled ppaff is not applied and the base affine is returned together
with the skipped-correction diagnostic. -/
theorem final_affine_composition (c : Fin 6 → ℚ) (px : Fin 2 → ℚ)
    (step fsp : Fin 3 → ℚ) (patpos : String) (pp : Matrix (Fin 4) (Fin 4) ℚ)
    (hpp : ppaffOf patpos = some pp) :
    baseAffine c px step fsp =
      !![-c 0 * px 1, -c 3 * px 0, -step 0, -fsp 0;
         -c 1 * px 1, -c 4 * px 0, -step 1, -fsp 1;
         c 2 * px 1, c 5 * px 0, step 2, fsp 2;
         0, 0, 0, 1] ∧
    finalAffine true patpos (baseAffine c px step fsp) =
      Except.ok (rot270x * rot180y * rot180z * pp * baseAffine c px step fsp, false) ∧
    finalAffine false patpos (baseAffine c px step fsp) =
      Except.ok (baseAffine c px step fsp, true) := by
  refine ⟨rfl, ?_, rfl⟩
  simp [finalAffine, hpp]

/-- Witness for C2 at the identity cosines and the "HFS" position. -/
theorem final_affine_composition_witness :
    finalAffine true "HFS" (baseAffine ![1, 0, 0, 0, 1, 0] ![1, 1] ![0, 0, -1] ![0, 0, 0]) =
      Except.ok (rot270x * rot180y * rot180z * rot180y *
        baseAffine ![1, 0, 0, 0, 1, 0] ![1, 1] ![0, 0, -1] ![0, 0, 0], false) :=
  (final_affine_composition ![1, 0, 0, 0, 1, 0] ![1, 1] ![0, 0, -1] ![0, 0, 0]
    "HFS" rot180y rfl).2.1

/-- C4: with a single slice the step vector is exactly (0, 0, -1)
regardless of the position inputs; with more than one slice the step
vector is (fsp - lsp) / (1 - slices) and the inter-slice distance
(the code's `eucliddist / (slices - 1)`, with `eucliddist` the
`** 0.5` of `euclidSqOf`) equals the Euclidean norm of fsp - lsp divided
by slices - 1. -/
theorem step_vector_and_slice_distance (fsp lsp : Fin 3 → ℚ) (s : ℤ) :
    (s = 1 → stepOf fsp lsp s = ![0, 0, -1]) ∧
    (1 < s →
      stepOf fsp lsp s = (fun i => (fsp i - lsp i) / (1 - (s : ℚ))) ∧
      ((euclidSqOf fsp lsp : ℝ) ^ ((1 : ℝ) / 2) / ((s : ℝ) - 1) =
        ‖(WithLp.equiv 2 ((i : Fin 3) → ℝ)).symm
            (fun i => ((fsp i - lsp i : ℚ) : ℝ))‖ / ((s : ℝ) - 1))) := by
  refine ⟨fun hs => by simp [stepOf, hs], fun hs => ⟨?_, ?_⟩⟩
  · have hne : s ≠ 1 := by omega
    simp [stepOf, hne]
  · congr 1
    rw [EuclideanSpace.norm_eq, Real.sqrt_eq_rpow]
    congr 1
    simp only [WithLp.equiv_symm_pi_apply, Real.norm_eq_abs, sq_abs,
      Fin.sum_univ_three]
    push_cast [euclidSqOf]
    ring

/-- Witness for C4: the single-slice branch, and the spec's worked
example fsp = (0,0,0), lsp = (0,0,-4), slices = 5. -/
theorem step_vector_and_slice_distance_witness :
    stepOf ![0, 0, 0] ![0, 0, -4] 1 = ![0, 0, -1] ∧
    stepOf ![0, 0, 0] ![0, 0, -4] 5 =
      (fun i => ((![0, 0, 0] : Fin 3 → ℚ) i - (![0, 0, -4] : Fin 3 → ℚ) i) / (1 - (5 : ℚ))) :=
  ⟨(step_vector_and_slice_distance ![0, 0, 0] ![0, 0, -4] 1).1 rfl,
   ((step_vector_and_slice_distance ![0, 0, 0] ![0, 0, -4] 5).2 (by decide)).1⟩

/-- C5: any optional per-frame sequence whose length differs from the
in-stack reference length - shorter or longer - is replaced wholesale by
that many "NA" sentinels; a sequence of matching length is kept
unchanged. -/
theorem optional_sequence_normalisation (xs : List Cell) (n : ℕ) :
    (xs.length ≠ n → normalizeOpt xs n = List.replicate n (Cell.s "NA")) ∧
    (xs.length = n → normalizeOpt xs n = xs) := by
  constructor <;> intro hx <;> simp [normalizeOpt, hx]

/-- Witness for C5: an under-length, an over-length and a matching
sequence. -/
theorem optional_sequence_normalisation_witness :
    normalizeOpt [Cell.q 5] 3 = List.replicate 3 (Cell.s "NA") ∧
    normalizeOpt [Cell.q 5, Cell.q 6, Cell.q 7] 2 = List.replicate 2 (Cell.s "NA") ∧
    normalizeOpt [Cell.q 5, Cell.q 6] 2 = [Cell.q 5, Cell.q 6] :=
  ⟨(optional_sequence_normalisation [Cell.q 5] 3).1 (by decide),
   (optional_sequence_normalisation [Cell.q 5, Cell.q 6, Cell.q 7] 2).1 (by decide),
   (optional_sequence_normalisation [Cell.q 5, Cell.q 6] 2).2 (by decide)⟩

/-- A nonempty list has a Python maximum. -/
theorem pymax_of_ne_nil {l : List ℤ} (hl : l ≠ []) :
    ∃ m, pymax l = Except.ok m := by
  cases l with
  | nil => exact absurd rfl hl
  | cons a as => exact ⟨as.foldl max a, rfl⟩

/-- C10: a dump with no In-Stack Position Number line leaves `ISPnums`
empty, and the conversion then fails at `slices = max(ISPnums)` (line
290) before any volume or affine is produced; hence every successful
conversion parsed at least one in-stack position number. -/
theorem empty_instack_fails_at_max (h : Header) (raw : List ℤ) (o : Opts)
    (pv bn : String) (hempty : h.ISPnums = []) :
    dcm_to_nii h raw o pv bn = Except.error ConvError.maxOfEmpty := by
  simp [dcm_to_nii, hempty, pymax, Bind.bind, Except.bind]

/-- Witness for C10 at a concrete header with an empty in-stack list. -/
theorem empty_instack_fails_at_max_witness :
    dcm_to_nii { hBase with ISPnums := [] } [5, 7] oAllOff "3" "b" =
      Except.error ConvError.maxOfEmpty :=
  empty_instack_fails_at_max { hBase with ISPnums := [] } [5, 7] oAllOff "3" "b" rfl

/-- The header of the C3 counterexample: an unsupported patient-position
code. -/
def hC3 : Header := { hBase with patpos := some "AAA" }

/-- The options with only the SIAP correction enabled. -/
def oSiap : Opts := ⟨true, false, false, false, false, false, false⟩

/-- C3 counterexample: with the anatomical-axis correction disabled, a
patient-position code outside {HFS, FFS, HFP} does not raise - the
conversion succeeds - so the failure is not raised "regardless of the
other inputs and options". -/
theorem unsupported_patpos_without_fix_succeeds :
    hC3.patpos = some "AAA" ∧
    ("AAA" ∉ (["HFS", "FFS", "HFP"] : List String)) ∧
    (dcm_to_nii hC3 [5, 7] oAllOff "3" "EnIm1.dcm").isOk = true :=
  ⟨rfl, by decide, rfl⟩

/-- C3 (amended): an unsupported patient-position code makes the
conversion fail only when the anatomical-axis correction is enabled
(`ppaff` is then read while unassigned); with the correction disabled the
code is ignored and the conversion behaves exactly as with a supported
code. -/
theorem unsupported_patpos_needs_fix (h : Header) (raw : List ℤ) (o : Opts)
    (pv bn : String) (p : String) (hp : h.patpos = some p)
    (h1 : p ≠ "HFS") (h2 : p ≠ "FFS") (h3 : p ≠ "HFP") :
    (o.siap_fix = true → (dcm_to_nii h raw o pv bn).isOk = false) ∧
    (o.siap_fix = false →
      dcm_to_nii h raw o pv bn =
        dcm_to_nii { h with patpos := some "FFS" } raw o pv bn) := by
  have hbad : ppaffOf p = none := by simp [ppaffOf, h1, h2, h3]
  constructor
  · intro hs
    cases hres : dcm_to_nii h raw o pv bn with
    | error e => rfl
    | ok res =>
      obtain ⟨-, -, -, -, -, -, -, p', hp', himp⟩ := dcm_ok_anatomy hres
      rw [hp] at hp'
      have hpe : p = p' := by injection hp'
      have hsome := himp hs
      rw [← hpe, hbad] at hsome
      simp at hsome
  · intro hs
    simp [dcm_to_nii, hs, hp, finalAffine, require, buildPtbl, Bind.bind, Except.bind]

/-- Witness for amended C3: the unsupported code with the correction
enabled fails. -/
theorem unsupported_patpos_needs_fix_witness :
    (dcm_to_nii hC3 [5, 7] oSiap "3" "EnIm1.dcm").isOk = false :=
  (unsupported_patpos_needs_fix hC3 [5, 7] oSiap "3" "EnIm1.dcm" "AAA" rfl
    (by decide) (by decide) (by decide)).1 rfl

/-- C8 counterexample: in-stack numbers [1, 3] do not cover 2, yet the
conversion succeeds - no 1..slices coverage validation exists. -/
def hC8 : Header :=
  { hBase with ISPnums := [1, 3], IPPs := [![0, 0, 0], ![0, 0, -2]], frames := some 3 }

/-- C8 counterexample: a gappy in-stack sequence (max 3, value 2 never
present) converts successfully instead of being rejected. -/
theorem coverage_gap_accepted :
    pymax hC8.ISPnums = Except.ok 3 ∧
    (2 : ℤ) ∉ hC8.ISPnums ∧
    (dcm_to_nii hC8 [0, 1, 2] oAllOff "3" "b").isOk = true :=
  ⟨rfl, by decide, rfl⟩

/-- C8 (amended): `slices` is the maximum of the parsed in-stack position
numbers, and the only coverage the code enforces is implicit: a
successful conversion requires the value 1 to occur (the first-slice
position lookup fails otherwise); interior values of 1..slices are not
validated. -/
theorem slices_max_and_coverage (h : Header) (raw : List ℤ) (o : Opts)
    (pv bn : String) :
    (∀ m, pymax h.ISPnums = Except.ok m →
      m ∈ h.ISPnums ∧ ∀ x ∈ h.ISPnums, x ≤ m) ∧
    (∀ res, dcm_to_nii h raw o pv bn = Except.ok res → (1 : ℤ) ∈ h.ISPnums) :=
  ⟨fun _ hm => pymax_spec hm,
   fun _ hres => (dcm_ok_anatomy hres).2.2.2.2.1⟩

/-- Witness for amended C8 at the gappy header. -/
theorem slices_max_and_coverage_witness :
    (3 : ℤ) ∈ hC8.ISPnums ∧ ∀ x ∈ hC8.ISPnums, x ≤ 3 :=
  (slices_max_and_coverage hC8 [0, 1, 2] oAllOff "3" "b").1 3 rfl

/-- C9: with every filename-component option disabled the conversion
still succeeds and the fallback warning fires, but the produced basename
is the characters of the DICOM basename joined by underscores, not the
basename itself: line 376 assigns the basename string (not a singleton
list) to `basename_parts`, so line 378's `'_'.join` iterates its
characters - contradicting the warning's own text "Using the DICOM
basename instead". -/
theorem empty_naming_fallback_mangles_basename :
    Except.map (fun res => (res.basename_no_ext, res.namingNote))
        (dcm_to_nii hBase [5, 7] oAllOff "3" "EnIm1.dcm") =
      Except.ok ("E_n_I_m_1_._d_c_m", true) ∧
    "E_n_I_m_1_._d_c_m" ≠ "EnIm1.dcm" :=
  ⟨rfl, by decide⟩

/-- The header of the C6 counterexample: orientation cosines absent and,
simultaneously, an empty in-stack list. -/
def hC6 : Header := { hBase with cosines := none, ISPnums := ([] : List ℤ) }

/-- C6 counterexample: with the cosines tag absent but the in-stack list
also empty, the conversion fails with the max-of-empty error, not with a
missing-metadata error naming the absent tag. -/
theorem missing_cosines_preempted :
    hC6.cosines = none ∧
    dcm_to_nii hC6 [] oAllOff "3" "b" = Except.error ConvError.maxOfEmpty ∧
    ∀ t, ConvError.maxOfEmpty ≠ ConvError.missingTag t :=
  ⟨rfl, rfl, fun _ h => ConvError.noConfusion h⟩

/-- C6 (amended): absence of any required scalar tag (orientation
cosines, pixel spacing, rows, columns, frames) makes the conversion fail,
so no volume or affine is produced; the error names the absent field
provided no earlier pipeline failure preempts it - shown for frames,
rows and columns under a nonempty in-stack list, and for the cosines
when every stage before the affine succeeds. -/
theorem missing_required_metadata (h : Header) (raw : List ℤ) (o : Opts)
    (pv bn : String) :
    ((h.cosines = none ∨ h.pixspac = none ∨ h.frames = none ∨
        h.rows = none ∨ h.cols = none) →
      (dcm_to_nii h raw o pv bn).isOk = false) ∧
    (h.ISPnums ≠ [] → h.frames = none →
      dcm_to_nii h raw o pv bn = Except.error (ConvError.missingTag "frames")) ∧
    (h.ISPnums ≠ [] → (∃ f, h.frames = some f) → h.rows = none →
      dcm_to_nii h raw o pv bn = Except.error (ConvError.missingTag "rows")) ∧
    (h.ISPnums ≠ [] → (∃ f, h.frames = some f) → (∃ r, h.rows = some r) →
      h.cols = none →
      dcm_to_nii h raw o pv bn = Except.error (ConvError.missingTag "cols")) ∧
    (∀ f r c s fsp lsp, h.frames = some f → h.rows = some r → h.cols = some c →
      0 ≤ f → 0 ≤ r → 0 ≤ c → pymax h.ISPnums = Except.ok s → 0 < s →
      raw.length = f.toNat * r.toNat * c.toNat → s.toNat ∣ f.toNat →
      maskFirst h.IPPs h.ISPnums 1 = Except.ok fsp →
      maskFirst h.IPPs h.ISPnums s = Except.ok lsp →
      h.cosines = none →
      dcm_to_nii h raw o pv bn = Except.error (ConvError.missingTag "cosines")) := by
  refine ⟨?_, ?_, ?_, ?_, ?_⟩
  · intro habs
    cases hres : dcm_to_nii h raw o pv bn with
    | error e => rfl
    | ok res =>
      obtain ⟨-, hfr, hrw, hcl, -, hcos, hpx, -⟩ := dcm_ok_anatomy hres
      rcases habs with hn | hn | hn | hn | hn
      · rw [hn] at hcos; simp at hcos
      · rw [hn] at hpx; simp at hpx
      · rw [hn] at hfr; simp at hfr
      · rw [hn] at hrw; simp at hrw
      · rw [hn] at hcl; simp at hcl
  · intro hne hfn
    obtain ⟨m, hm⟩ := pymax_of_ne_nil hne
    simp [dcm_to_nii, hm, hfn, require, Bind.bind, Except.bind]
  · intro hne hfs hrn
    obtain ⟨m, hm⟩ := pymax_of_ne_nil hne
    obtain ⟨fv, hfv⟩ := hfs
    simp [dcm_to_nii, hm, hfv, hrn, require, Bind.bind, Except.bind]
  · intro hne hfs hrs hcn
    obtain ⟨m, hm⟩ := pymax_of_ne_nil hne
    obtain ⟨fv, hfv⟩ := hfs
    obtain ⟨rv, hrv⟩ := hrs
    simp [dcm_to_nii, hm, hfv, hrv, hcn, require, Bind.bind, Except.bind]
  · intro f r c s fsp lsp hf hr hc hf0 hr0 hc0 hsm hs0 hlen hdvd hfsp hlsp hcn
    have e1 : f.toNat * (r.toNat * c.toNat) = raw.length := by rw [hlen]; ring
    have e2 : f.toNat / s.toNat * (s.toNat * (r.toNat * c.toNat)) = raw.length := by
      rw [hlen]
      calc f.toNat / s.toNat * (s.toNat * (r.toNat * c.toNat))
          = f.toNat / s.toNat * s.toNat * (r.toNat * c.toNat) := by ring
        _ = f.toNat * (r.toNat * c.toNat) := by rw [Nat.div_mul_cancel hdvd]
        _ = f.toNat * r.toNat * c.toNat := by ring
    have hsne : s ≠ 0 := hs0.ne'
    have hslt : ¬ s < 0 := not_lt.mpr hs0.le
    simp [dcm_to_nii, hsm, hf, hr, hc, hf0, hr0, hc0, toDim, require, hsne, hslt,
      reshapeVolume, npReshape, e1, e2, hfsp, hlsp, hcn, Bind.bind, Except.bind]

/-- Witness for amended C6: a header missing the frame-count tag fails,
and one missing only the cosines fails naming "cosines". -/
theorem missing_required_metadata_witness :
    (dcm_to_nii { hBase with frames := none } [5, 7] oAllOff "3" "b").isOk = false ∧
    dcm_to_nii { hBase with cosines := none } [5, 7] oAllOff "3" "b" =
      Except.error (ConvError.missingTag "cosines") :=
  ⟨(missing_required_metadata { hBase with frames := none } [5, 7] oAllOff "3" "b").1
      (Or.inr (Or.inr (Or.inl rfl))),
   (missing_required_metadata { hBase with cosines := none } [5, 7] oAllOff "3" "b").2.2.2.2
      2 1 1 2 ![0, 0, 0] ![0, 0, -1] rfl rfl rfl (by decide) (by decide) (by decide)
      rfl (by decide) (by decide) (by decide) rfl rfl rfl⟩

/-- The header of the C7 counterexample: 3 frames, 2 slices, but a
zero-row pixel grid. -/
def hC7 : Header := { hBase with frames := some 3, rows := some 0 }

/-- C7 counterexample: with rows = 0 the reshape of the (empty) buffer
succeeds even though 3 frames are not divisible by 2 slices, and the
conversion completes instead of failing. -/
theorem indivisible_frames_accepted_with_zero_rows :
    hC7.frames = some 3 ∧
    pymax hC7.ISPnums = Except.ok 2 ∧
    ¬ ((2 : ℤ) ∣ 3) ∧
    (dcm_to_nii hC7 [] oAllOff "3" "b").isOk = true :=
  ⟨rfl, rfl, by decide, rfl⟩

/-- C7 (amended): with a positive pixel grid (rows > 0, cols > 0), a
frame count not divisible by the slice count makes the conversion fail
with the reshape (inconsistent frame geometry) error; when it is
divisible, the reshape succeeds with repetitions = frames / slices. -/
theorem frame_slice_divisibility (h : Header) (raw : List ℤ) (o : Opts)
    (pv bn : String) (f r c s : ℤ)
    (hf : h.frames = some f) (hr : h.rows = some r) (hc : h.cols = some c)
    (hf0 : 0 ≤ f) (hr0 : 0 < r) (hc0 : 0 < c)
    (hsm : pymax h.ISPnums = Except.ok s) (hs0 : 0 < s)
    (hlen : raw.length = f.toNat * r.toNat * c.toNat) :
    (¬ (s.toNat ∣ f.toNat) →
      dcm_to_nii h raw o pv bn = Except.error ConvError.reshapeMismatch) ∧
    (s.toNat ∣ f.toNat →
      reshapeVolume raw f.toNat s.toNat r.toNat c.toNat =
        Except.ok ⟨⟨[f.toNat / s.toNat, s.toNat, r.toNat, c.toNat], raw⟩⟩) := by
  have hrc : 0 < r.toNat * c.toNat := by
    have h1 : 0 < r.toNat := by omega
    have h2 : 0 < c.toNat := by omega
    exact Nat.mul_pos h1 h2
  have e1 : f.toNat * (r.toNat * c.toNat) = raw.length := by rw [hlen]; ring
  have hsne : s ≠ 0 := hs0.ne'
  have hslt : ¬ s < 0 := not_lt.mpr hs0.le
  constructor
  · intro hndvd
    have hne : f.toNat / s.toNat * (s.toNat * (r.toNat * c.toNat)) ≠ raw.length := by
      rw [hlen]
      intro heq
      apply hndvd
      have h1 : f.toNat / s.toNat * s.toNat * (r.toNat * c.toNat)
          = f.toNat * (r.toNat * c.toNat) := by
        calc f.toNat / s.toNat * s.toNat * (r.toNat * c.toNat)
            = f.toNat / s.toNat * (s.toNat * (r.toNat * c.toNat)) := by ring
          _ = f.toNat * r.toNat * c.toNat := heq
          _ = f.toNat * (r.toNat * c.toNat) := by ring
      have h2 : f.toNat / s.toNat * s.toNat = f.toNat :=
        Nat.eq_of_mul_eq_mul_right hrc h1
      exact Dvd.intro_left _ h2
    simp [dcm_to_nii, hsm, hf, hr, hc, hf0, hr0.le, hc0.le, toDim, require,
      hsne, hslt, reshapeVolume, npReshape, e1, hne, Bind.bind, Except.bind]
  · intro hdvd
    have e2 : f.toNat / s.toNat * (s.toNat * (r.toNat * c.toNat)) = raw.length := by
      rw [hlen]
      calc f.toNat / s.toNat * (s.toNat * (r.toNat * c.toNat))
          = f.toNat / s.toNat * s.toNat * (r.toNat * c.toNat) := by ring
        _ = f.toNat * (r.toNat * c.toNat) := by rw [Nat.div_mul_cancel hdvd]
        _ = f.toNat * r.toNat * c.toNat := by ring
    simp [reshapeVolume, npReshape, e1, e2, Bind.bind, Except.bind]

/-- Witness for amended C7: 3 frames over 2 slices with a 1x1 grid fail
with the reshape error. -/
theorem frame_slice_divisibility_witness :
    dcm_to_nii { hBase with frames := some 3 } [0, 1, 2] oAllOff "3" "b" =
      Except.error ConvError.reshapeMismatch :=
  (frame_slice_divisibility { hBase with frames := some 3 } [0, 1, 2] oAllOff "3" "b"
    3 1 1 2 rfl rfl rfl (by decide) (by decide) (by decide) rfl (by decide)
    (by decide)).1 (by decide)

end BrukerDicom
